import Mathlib

/-!
Shallow embedding of the API-client layer (`src/lib/apis/baseApi.ts`,
`src/lib/apis/usersApi.ts`), the Zod schemata
(`src/lib/schemas/authSchemas.ts`) and the custom JUnit/Xray report
formatter (`src/lib/reporters/xrayJunitReporter.ts`) of the repository
`pw-poc-tna`, together with theorems settling the frozen claims about them.

Modelling conventions:
- JavaScript runtime values that can flow through the client are modelled by
  the inductive type `Js` (undefined, null, booleans, numbers, strings,
  arrays, objects).
- `JSON.parse` is part of the JavaScript runtime, not of this repository;
  it is abstracted as a parse oracle `jp : String → Option Js` (`none`
  models a thrown SyntaxError).  Theorems quantify over the oracle; where a
  real constraint is needed we hypothesise that the oracle only produces
  values JSON can denote (no `undefined` inside, `Js.jsonLike`).
- A Zod schema is modelled by its acceptance predicate `Js → Bool`
  (`schema.parse v` throws exactly when the predicate is false; the client
  code ignores the parsed value, so acceptance is all that matters).
  `z.string().email()` delegates to a Zod-internal regular expression,
  abstracted as a parameter `emailOk : String → Bool`.
- Exceptions are modelled with `Except`.
-/

/-- JavaScript runtime values reachable in the client code. -/
inductive Js where
  | undefined : Js
  | null : Js
  | bool : Bool → Js
  | num : Int → Js
  | str : String → Js
  | arr : List Js → Js
  | obj : List (String × Js) → Js

/-- JavaScript truthiness (`if (v)`).  `undefined`, `null`, `false`, `0` and
`""` are falsy; every array and object is truthy. -/
def Js.truthy : Js → Bool
  | .undefined => false
  | .null => false
  | .bool b => b
  | .num n => n != 0
  | .str s => !s.isEmpty
  | .arr _ => true
  | .obj _ => true

/-- `typeof v === 'object'` (true for `null`, arrays and objects). -/
def Js.isObjectType : Js → Bool
  | .null => true
  | .arr _ => true
  | .obj _ => true
  | _ => false

/-- The JavaScript `in` operator on the values at hand: key membership for
objects; arrays expose `length` (numeric indices never matter here because
the client only tests the key `"data"`). -/
def Js.hasProp : Js → String → Bool
  | .obj fs, k => (fs.find? (fun p => p.1 == k)).isSome
  | .arr _, k => k == "length"
  | _, _ => false

/-- Value of a field of an object field list; absent fields read as
`undefined`, exactly like JavaScript property access on objects. -/
def fieldVal (fs : List (String × Js)) (k : String) : Js :=
  match fs.find? (fun p => p.1 == k) with
  | some p => p.2
  | none => Js.undefined

/-- JavaScript property read `v[k]` on a non-nullish value. -/
def Js.get : Js → String → Js
  | .obj fs, k => fieldVal fs k
  | .arr l, k => if k == "length" then .num l.length else .undefined
  | _, _ => .undefined

/-- Optional chaining `v?.k`: `undefined` when `v` is nullish, otherwise a
property read. -/
def Js.optChain (v : Js) (k : String) : Js :=
  match v with
  | .null => .undefined
  | .undefined => .undefined
  | _ => v.get k

/-- `a ?? b`: nullish coalescing. -/
def Js.coalesce (a b : Js) : Js :=
  match a with
  | .null => b
  | .undefined => b
  | _ => a

/-- Is the value `null` or `undefined`? -/
def Js.nullish : Js → Bool
  | .null => true
  | .undefined => true
  | _ => false

mutual
/-- Values that `JSON.parse` can actually produce: no `undefined` anywhere. -/
def Js.jsonLike : Js → Bool
  | .undefined => false
  | .null => true
  | .bool _ => true
  | .num _ => true
  | .str _ => true
  | .arr l => jsonLikeList l
  | .obj fs => jsonLikeFields fs

/-- All elements of a list are JSON-denotable. -/
def jsonLikeList : List Js → Bool
  | [] => true
  | j :: rest => Js.jsonLike j && jsonLikeList rest

/-- All field values of an object field list are JSON-denotable. -/
def jsonLikeFields : List (String × Js) → Bool
  | [] => true
  | p :: rest => Js.jsonLike p.2 && jsonLikeFields rest
end

/-- Errors thrown by the client layer: `ApiError` (from `baseApi.ts`, with
its `message`, optional `status` and `body` fields) or a Zod validation
error (`ZodError`, which carries no HTTP status). -/
inductive JsErr where
  | apiError : String → Option Nat → Js → JsErr
  | zodError : JsErr

/-- `String(err)` as used by `usersApi.ts` when wrapping a non-`ApiError`;
the exact rendering of a ZodError is runtime detail and immaterial to every
claim, so it is a fixed marker string. -/
def errToString : JsErr → String
  | .apiError m _ _ => m
  | .zodError => "ZodError"

/-- `baseApi.ts` lines 56-62: read the response text; parse it as JSON when
non-empty, keeping the raw text if `JSON.parse` throws; an empty text gives
an `undefined` body. -/
def parseBody (jp : String → Option Js) (text : String) : Js :=
  if text = "" then Js.undefined
  else
    match jp text with
    | some j => j
    | none => Js.str text

/-- `baseApi.ts` line 69: `body && typeof body === 'object' && 'data' in
body ? body.data : body`. -/
def unwrap (body : Js) : Js :=
  if body.truthy && body.isObjectType && body.hasProp "data" then
    body.get "data"
  else body

/-- `BaseApi.parseAndValidate` (`baseApi.ts` lines 55-76): parse the body,
throw `ApiError` when `status >= 400` (attaching `body ?? text`), unwrap the
envelope, run the optional schema on `payload ?? body`, return the payload.
All four request methods (`get`, `post`, `patch`, `delete`) forward their
response here unchanged. -/
def parseAndValidate (jp : String → Option Js) (status : Nat) (text : String)
    (schema : Option (Js → Bool)) : Except JsErr Js :=
  let body := parseBody jp text
  if status ≥ 400 then
    .error (.apiError ("Request failed with status " ++ Nat.repr status)
      (some status) (body.coalesce (Js.str text)))
  else
    let payload := unwrap body
    match schema with
    | some s => if s (payload.coalesce body) then .ok payload else .error .zodError
    | none => .ok payload

/-! ### Zod schemata (`src/lib/schemas/authSchemas.ts`)

A Zod schema is embedded as its acceptance predicate.  `z.optional` accepts
`undefined` (and an absent object field reads as `undefined`); `z.object`
rejects everything that is not a plain object, including `null` and arrays;
default ("strip") objects and `.passthrough()` objects both accept unknown
keys, so passthrough does not change acceptance. -/

/-- `z.optional(p)` applied to a (possibly absent, hence `undefined`) field
value. -/
def zodOpt (p : Js → Bool) (v : Js) : Bool :=
  match v with
  | .undefined => true
  | _ => p v

/-- `z.string()` acceptance. -/
def isStr : Js → Bool
  | .str _ => true
  | _ => false

/-- `z.union([z.string(), z.number()])` acceptance. -/
def isStrNum : Js → Bool
  | .str _ => true
  | .num _ => true
  | _ => false

/-- `z.string().email()` acceptance, with Zod's email regular expression
abstracted as `emailOk`. -/
def isEmailStr (emailOk : String → Bool) : Js → Bool
  | .str s => emailOk s
  | _ => false

/-- `RegisterUserRequestSchema` (`authSchemas.ts` lines 23-27): `name`
non-empty, `email` a valid email, `password` at least 6 characters.  Stated
on the record the client actually passes (`{ name, email, password }`). -/
def RegisterUserRequestSchema (emailOk : String → Bool)
    (name email password : String) : Bool :=
  (1 ≤ name.length : Bool) && emailOk email && (6 ≤ password.length : Bool)

/-- `LoginRequestSchema` (`authSchemas.ts` lines 70-73): valid email,
non-empty password. -/
def LoginRequestSchema (emailOk : String → Bool) (email password : String) : Bool :=
  emailOk email && (1 ≤ password.length : Bool)

/-- The inner `data` object of `RegisterResponseSchema`: optional `id`
(string or number), optional `name` (string), optional `email` (valid
email). -/
def registerDataOk (emailOk : String → Bool) : Js → Bool
  | .obj dfs =>
      zodOpt isStrNum (fieldVal dfs "id") && zodOpt isStr (fieldVal dfs "name")
        && zodOpt (isEmailStr emailOk) (fieldVal dfs "email")
  | _ => false

/-- `RegisterResponseSchema` (`authSchemas.ts` lines 46-59): a passthrough
object with optional `data` sub-object and optional top-level `id`, `name`,
`email`. -/
def RegisterResponseSchema (emailOk : String → Bool) : Js → Bool
  | .obj fs =>
      zodOpt (registerDataOk emailOk) (fieldVal fs "data")
        && zodOpt isStrNum (fieldVal fs "id") && zodOpt isStr (fieldVal fs "name")
        && zodOpt (isEmailStr emailOk) (fieldVal fs "email")
  | _ => false

/-- The inner `data` object of `LoginResponseSchema`: required `token`
string. -/
def loginDataOk : Js → Bool
  | .obj dfs => isStr (fieldVal dfs "token")
  | _ => false

/-- `LoginResponseSchema` (`authSchemas.ts` lines 88-96): a passthrough
object with optional `data.token` and optional top-level `token`, refined by
`Boolean(val?.data?.token || val?.token)`. -/
def LoginResponseSchema : Js → Bool
  | .obj fs =>
      zodOpt loginDataOk (fieldVal fs "data") && zodOpt isStr (fieldVal fs "token")
        && ((((Js.obj fs).optChain "data").optChain "token").truthy
            || ((Js.obj fs).optChain "token").truthy)
  | _ => false

/-! ### UsersApi (`src/lib/apis/usersApi.ts`)

Both methods validate their request payload with a request schema, post
through `BaseApi.post` with a response schema, and wrap any non-`ApiError`
thrown inside the `try` block into `new ApiError(String(err))` (which has
neither status nor body).  The HTTP transport is abstracted: a method is run
against the `(status, text)` response the server would produce, and the
second component of the result records whether the HTTP request was issued
at all. -/

/-- The `catch` clause shared by `register` and `login`: rethrow `ApiError`,
wrap anything else as `new ApiError(String(err))`. -/
def wrapErr (e : JsErr) : JsErr :=
  match e with
  | .apiError _ _ _ => e
  | .zodError => .apiError (errToString .zodError) none .undefined

/-- `data?.token ?? data?.data?.token ?? data?.token` from `UsersApi.login`. -/
def tokenExpr (d : Js) : Js :=
  ((d.optChain "token").coalesce ((d.optChain "data").optChain "token")).coalesce
    (d.optChain "token")

/-- `UsersApi.register` (`usersApi.ts`): validate the request with
`RegisterUserRequestSchema` (a failure here throws the Zod error before any
HTTP traffic), post with `RegisterResponseSchema`, return `data ?? {}`. -/
def UsersApi.register (jp : String → Option Js) (emailOk : String → Bool)
    (name email password : String) (resp : Nat × String) :
    Except JsErr Js × Bool :=
  if RegisterUserRequestSchema emailOk name email password then
    match parseAndValidate jp resp.1 resp.2 (some (RegisterResponseSchema emailOk)) with
    | .ok d => (.ok (d.coalesce (Js.obj [])), true)
    | .error e => (.error (wrapErr e), true)
  else (.error .zodError, false)

/-- `UsersApi.login` (`usersApi.ts`): validate the request with
`LoginRequestSchema` (a failure here throws the Zod error before any HTTP
traffic), post with `LoginResponseSchema`, return
`data?.token ?? data?.data?.token ?? data?.token`. -/
def UsersApi.login (jp : String → Option Js) (emailOk : String → Bool)
    (email password : String) (resp : Nat × String) :
    Except JsErr Js × Bool :=
  if LoginRequestSchema emailOk email password then
    match parseAndValidate jp resp.1 resp.2 (some LoginResponseSchema) with
    | .ok d => (.ok (tokenExpr d), true)
    | .error e => (.error (wrapErr e), true)
  else (.error .zodError, false)

/-! ### XrayJUnitReporter (`src/lib/reporters/xrayJunitReporter.ts`)

The reporter input is modelled structurally: each test carries its title, its
annotations, the path of its file relative to the configured root directory
(`path.relative(this.config.rootDir, test.location.file)`, computed by the
Node runtime), and the list of recorded results for it (the reporter's
`results` map).  Durations are modelled as whole milliseconds, which is what
the claims-relevant code paths feed to `toFixed(3)`. -/

/-- One entry of `test.annotations`: a `type` and an optional `description`. -/
structure TestAnn where
  atype : String
  description : Option String

/-- The Playwright result statuses the reporter inspects. -/
inductive TStatus where
  | passed : TStatus
  | failed : TStatus
  | timedOut : TStatus
  | skipped : TStatus
  | interrupted : TStatus

/-- One recorded `TestResult`: status, duration (ms), optional error message
and stack. -/
structure TResult where
  status : TStatus
  duration : Nat
  errorMessage : Option String
  errorStack : Option String

/-- One `TestCase` together with the reporter state attached to it. -/
structure TCase where
  title : String
  annotations : List TestAnn
  relativePath : String
  results : List TResult

/-- One top-level `Suite` as consumed by `generateTestSuite`. -/
structure SuiteInput where
  title : String
  relativeFile : String
  tests : List TCase

/-- Replace every occurrence of the character `c` by `r`
(JavaScript `str.replace(/c/g, r)` for a single-character pattern). -/
def replaceChar (s : String) (c : Char) (r : String) : String :=
  String.join (s.toList.map (fun ch => if ch == c then r else String.singleton ch))

/-- `XrayJUnitReporter.escapeXml` (lines 150-157): chain of five global
single-character replacements, ampersand first. -/
def escapeXml (s : String) : String :=
  replaceChar (replaceChar (replaceChar (replaceChar (replaceChar s
    '&' "&amp;") '<' "&lt;") '>' "&gt;") '"' "&quot;") (Char.ofNat 39) "&apos;"

/-- `(duration / 1000).toFixed(3)` for a whole-millisecond duration. -/
def msToSecFixed3 (ms : Nat) : String :=
  let frac := ms % 1000
  let pad := if frac < 10 then "00" else if frac < 100 then "0" else ""
  Nat.repr (ms / 1000) ++ "." ++ pad ++ Nat.repr frac

/-- `t.toFixed(3)` for a whole-number accumulated time. -/
def fixed3 (t : Nat) : String :=
  Nat.repr t ++ ".000"

/-- Classname construction from `generateTestSuite` (lines 104-110): take
the first annotation whose `type` is `'xray'` (`annotations.find`), read its
`description`, and prepend `key ++ "::"` exactly when that description is
truthy (present and non-empty). -/
def buildClassname (anns : List TestAnn) (relativePath : String) : String :=
  let xrayKey :=
    match anns.find? (fun a => a.atype == "xray") with
    | some a => a.description.getD ""
    | none => ""
  if xrayKey.isEmpty then relativePath else xrayKey ++ "::" ++ relativePath

/-- `XrayJUnitReporter.generateTestCase` (lines 128-148).  Note the `||`
fallbacks (`result.error?.message || 'Test failed'`, `result.error?.stack ||
''`) and that the stack is interpolated into a CDATA section without any
escaping. -/
def generateTestCase (t : TCase) (result : TResult) (classname : String) : String :=
  let name := t.title
  let time := msToSecFixed3 result.duration
  let head := "<testcase name=\"" ++ escapeXml name ++ "\" classname=\""
    ++ escapeXml classname ++ "\" time=\"" ++ time ++ "\">"
  let mid :=
    match result.status with
    | .failed | .timedOut =>
        let error :=
          match result.errorMessage with
          | some m => if m.isEmpty then "Test failed" else m
          | none => "Test failed"
        let stack := (result.errorStack.getD "")
        ["  <failure message=\"" ++ escapeXml error ++ "\">",
         "    <![CDATA[" ++ stack ++ "]]>",
         "  </failure>"]
    | .skipped => ["  <skipped/>"]
    | _ => []
  String.intercalate "\n" ([head] ++ mid ++ ["</testcase>"])

/-- Accumulated per-suite statistics. -/
structure SuiteStats where
  tests : Nat
  failures : Nat
  skipped : Nat
  time : Nat

/-- The per-test loop body of `generateTestSuite`: tests with no recorded
results are skipped; the last result drives status bookkeeping; the
classname is built from the annotations and the relative path. -/
def suiteFold (acc : List String × SuiteStats) (t : TCase) :
    List String × SuiteStats :=
  match t.results.getLast? with
  | none => acc
  | some lastResult =>
      let (tests, st) := acc
      let failInc :=
        match lastResult.status with
        | .failed | .timedOut => 1
        | _ => 0
      let skipInc :=
        match lastResult.status with
        | .skipped => 1
        | _ => 0
      let classname := buildClassname t.annotations t.relativePath
      (tests ++ [generateTestCase t lastResult classname],
       { tests := st.tests + 1, failures := st.failures + failInc,
         skipped := st.skipped + skipInc, time := st.time + lastResult.duration })

/-- `XrayJUnitReporter.generateTestSuite` (lines 80-126). -/
def generateTestSuite (s : SuiteInput) : String × SuiteStats :=
  let (tests, st) := s.tests.foldl suiteFold ([], ⟨0, 0, 0, 0⟩)
  let suiteName := if s.title.isEmpty then s.relativeFile else s.title
  let xml := String.intercalate "\n"
    (["<testsuite name=\"" ++ escapeXml suiteName ++ "\" tests=\""
        ++ Nat.repr st.tests ++ "\" failures=\"" ++ Nat.repr st.failures
        ++ "\" skipped=\"" ++ Nat.repr st.skipped ++ "\" time=\""
        ++ fixed3 st.time ++ "\">"]
      ++ tests ++ ["</testsuite>"])
  (xml, st)

/-- `XrayJUnitReporter.generateJUnitXML` (lines 54-78): prolog, aggregated
`<testsuites>` element, and every suite that recorded at least one test. -/
def generateJUnitXML (suites : List SuiteInput) : String :=
  let step := fun (acc : List String × SuiteStats) (s : SuiteInput) =>
    let (xmls, tot) := acc
    let (xml, st) := generateTestSuite s
    if 0 < st.tests then
      (xmls ++ [xml],
       { tests := tot.tests + st.tests, failures := tot.failures + st.failures,
         skipped := tot.skipped + st.skipped, time := tot.time + st.time })
    else acc
  let (xmls, tot) := suites.foldl step ([], ⟨0, 0, 0, 0⟩)
  String.intercalate "\n"
    (["<?xml version=\"1.0\" encoding=\"UTF-8\"?>",
      "<testsuites tests=\"" ++ Nat.repr tot.tests ++ "\" failures=\""
        ++ Nat.repr tot.failures ++ "\" skipped=\"" ++ Nat.repr tot.skipped
        ++ "\" time=\"" ++ fixed3 tot.time ++ "\">"]
      ++ xmls ++ ["</testsuites>"])

/-! ### An XML well-formedness checker

A specification-side recursive-descent checker for the XML 1.0 fragment the
reporter emits: an optional `<?xml ...?>` prolog followed by one element;
elements have double-quoted attributes; character data and attribute values
may not contain a raw `<`, an `&` must start an entity reference (one of the
five predefined references or a numeric character reference), character data
may not contain the sequence `]]>`, and a CDATA section runs to the first
`]]>`.  The checker is lenient where the XML grammar is stricter (name
syntax, attribute uniqueness, whitespace between attributes), so a string it
rejects is rejected at a genuine well-formedness violation. -/

/-- XML whitespace. -/
def isXmlSpace (c : Char) : Bool :=
  c == ' ' || c == '\n' || c == '\t' || c == '\r'

/-- Characters accepted in element and attribute names. -/
def isXmlNameChar (c : Char) : Bool :=
  c.isAlphanum || c == '-' || c == '_' || c == ':' || c == '.'

/-- Drop leading XML whitespace. -/
def skipXmlWs : List Char → List Char
  | c :: cs => if isXmlSpace c then skipXmlWs cs else c :: cs
  | [] => []

/-- Split off a maximal run of name characters. -/
def takeXmlName : List Char → List Char × List Char
  | c :: cs =>
      if isXmlNameChar c then
        let (n, r) := takeXmlName cs
        (c :: n, r)
      else ([], c :: cs)
  | [] => ([], [])

/-- Drop a maximal run of decimal digits (at least one required). -/
def dropDigits1 : List Char → Option (List Char)
  | c :: cs => if c.isDigit then some (cs.dropWhile Char.isDigit) else none
  | [] => none

/-- After a `&`: accept the five predefined entity references or a decimal
character reference. -/
def dropEntity (cs : List Char) : Option (List Char) :=
  match cs with
  | 'a' :: 'm' :: 'p' :: ';' :: r => some r
  | 'l' :: 't' :: ';' :: r => some r
  | 'g' :: 't' :: ';' :: r => some r
  | 'q' :: 'u' :: 'o' :: 't' :: ';' :: r => some r
  | 'a' :: 'p' :: 'o' :: 's' :: ';' :: r => some r
  | '#' :: r =>
      match dropDigits1 r with
      | some (';' :: r2) => some r2
      | _ => none
  | _ => none

/-- Scan a CDATA section body up to and past the first `]]>`. -/
def dropCdata : List Char → Option (List Char)
  | ']' :: ']' :: '>' :: r => some r
  | _ :: r => dropCdata r
  | [] => none

/-- Consume a double-quoted attribute value up to and past the closing
quote: no raw `<` or `"`, and `&` must start an entity reference. -/
def parseAttrValue : Nat → List Char → Option (List Char)
  | 0, _ => none
  | _ + 1, '"' :: r => some r
  | fuel + 1, '&' :: r =>
      match dropEntity r with
      | some r1 => parseAttrValue fuel r1
      | none => none
  | _ + 1, '<' :: _ => none
  | fuel + 1, _ :: r => parseAttrValue fuel r
  | _ + 1, [] => none

/-- Consume the attribute list of a start tag, stopping in front of `/` or
`>`. -/
def parseAttrs : Nat → List Char → Option (List Char)
  | 0, _ => none
  | fuel + 1, cs =>
      let cs1 := skipXmlWs cs
      match cs1 with
      | '/' :: _ => some cs1
      | '>' :: _ => some cs1
      | _ =>
          let (n, r) := takeXmlName cs1
          if n.isEmpty then none
          else
            match r with
            | '=' :: '"' :: r2 =>
                match parseAttrValue fuel r2 with
                | some r3 => parseAttrs fuel r3
                | none => none
            | _ => none

mutual
/-- Consume one element (start tag, content, matching end tag, or a
self-closing tag). -/
def parseElement : Nat → List Char → Option (List Char)
  | 0, _ => none
  | fuel + 1, cs =>
      match cs with
      | '<' :: r =>
          let (n, r1) := takeXmlName r
          if n.isEmpty then none
          else
            match parseAttrs fuel r1 with
            | some ('/' :: '>' :: r3) => some r3
            | some ('>' :: r3) => parseContent fuel n r3
            | _ => none
      | _ => none

/-- Consume element content up to and past the matching end tag. -/
def parseContent : Nat → List Char → List Char → Option (List Char)
  | 0, _, _ => none
  | fuel + 1, name, cs =>
      match cs with
      | '<' :: '/' :: r =>
          let (n, r1) := takeXmlName r
          if n == name then
            match skipXmlWs r1 with
            | '>' :: r2 => some r2
            | _ => none
          else none
      | '<' :: '!' :: '[' :: 'C' :: 'D' :: 'A' :: 'T' :: 'A' :: '[' :: r =>
          match dropCdata r with
          | some r1 => parseContent fuel name r1
          | none => none
      | '<' :: _ =>
          match parseElement fuel cs with
          | some r1 => parseContent fuel name r1
          | none => none
      | '&' :: r =>
          match dropEntity r with
          | some r1 => parseContent fuel name r1
          | none => none
      | ']' :: ']' :: '>' :: _ => none
      | _ :: r => parseContent fuel name r
      | [] => none
end

/-- Scan past the end `?>` of the prolog. -/
def dropProlog : List Char → Option (List Char)
  | '?' :: '>' :: r => some r
  | _ :: r => dropProlog r
  | [] => none

/-- Well-formedness of a whole document: optional prolog, exactly one root
element, nothing but whitespace around them. -/
def wellFormedXml (s : String) : Bool :=
  let cs := s.toList
  let fuel := cs.length + 1
  let afterProlog : Option (List Char) :=
    match skipXmlWs cs with
    | '<' :: '?' :: 'x' :: 'm' :: 'l' :: r => dropProlog r
    | other => some other
  match afterProlog with
  | none => false
  | some cs2 =>
      match parseElement fuel (skipXmlWs cs2) with
      | some rest => (skipXmlWs rest).isEmpty
      | none => false

/-- A reporter input whose single failed test has an error stack containing
the CDATA terminator `]]>` followed by a bare ampersand — ordinary
characters in a JavaScript stack trace. -/
def cdataBreakSuite : SuiteInput :=
  ⟨"s", "f.ts", [⟨"t", [], "f.ts", [⟨.failed, 0, none, some "]]>&"⟩]⟩]⟩

/-- A benign reporter input exercising a failure (with characters needing
escape), a skipped test and a passed test. -/
def plainSuite : SuiteInput :=
  ⟨"api", "tests/api/auth.spec.ts",
   [⟨"rejects & <bad> logins", [⟨"xray", some "XSP-54"⟩], "tests/api/auth.spec.ts",
     [⟨.failed, 1234, some "boom <&>", some "at auth.spec.ts:10"⟩]⟩,
    ⟨"skipped one", [], "tests/api/auth.spec.ts", [⟨.skipped, 5, none, none⟩]⟩,
    ⟨"passes", [], "tests/api/auth.spec.ts", [⟨.passed, 7, none, none⟩]⟩]⟩

/-! ### Helper lemmas -/

/-- A non-nullish value wins in `??`. -/
theorem coalesce_not_nullish (a b : Js) (h : a.nullish = false) :
    a.coalesce b = a := by
  cases a <;> simp_all [Js.nullish, Js.coalesce]

/-- A nullish value yields the fallback in `??`. -/
theorem coalesce_nullish (a b : Js) (h : a.nullish = true) :
    a.coalesce b = b := by
  cases a <;> simp_all [Js.nullish, Js.coalesce]

/-- What `z.string().optional()` accepts. -/
theorem zodOpt_isStr (v : Js) (h : zodOpt isStr v = true) :
    v = .undefined ∨ ∃ s, v = .str s := by
  cases v <;> simp_all [zodOpt, isStr]

/-- What `z.string()` accepts. -/
theorem isStr_str (v : Js) (h : isStr v = true) : ∃ s, v = .str s := by
  cases v <;> simp_all [isStr]

/-- `LoginResponseSchema` only accepts plain objects. -/
theorem loginSchema_obj (v : Js) (h : LoginResponseSchema v = true) :
    ∃ fs, v = .obj fs := by
  cases v <;> simp_all [LoginResponseSchema]

/-- A field value found in a JSON-denotable object is JSON-denotable. -/
theorem jsonLikeFields_find (fs : List (String × Js)) (q : String × Js → Bool)
    (pr : String × Js) (h : jsonLikeFields fs = true)
    (hf : fs.find? q = some pr) : pr.2.jsonLike = true := by
  induction fs with
  | nil => simp [List.find?] at hf
  | cons hd tl ih =>
      rw [jsonLikeFields] at h
      rcases Bool.and_eq_true _ _ |>.mp h with ⟨h1, h2⟩
      cases hq : q hd with
      | true =>
          simp [List.find?, hq] at hf
          subst hf
          exact h1
      | false =>
          simp [List.find?, hq] at hf
          exact ih h2 hf

/-- A successful `parseAndValidate` returns the unwrapped payload. -/
theorem parseAndValidate_ok_payload (jp : String → Option Js) (status : Nat)
    (text : String) (sch : Option (Js → Bool)) (v : Js)
    (h : parseAndValidate jp status text sch = .ok v) :
    v = unwrap (parseBody jp text) := by
  unfold parseAndValidate at h
  by_cases hs : status ≥ 400
  · simp [hs] at h
  · simp [hs] at h
    cases sch with
    | none => simpa using h.symm
    | some S =>
        by_cases hc : S ((unwrap (parseBody jp text)).coalesce (parseBody jp text))
        · simp [hc] at h; exact h.symm
        · simp [hc] at h

/-- A successful schema-checked `parseAndValidate` means the schema accepted
`payload ?? body`. -/
theorem parseAndValidate_ok_schema (jp : String → Option Js) (status : Nat)
    (text : String) (S : Js → Bool) (v : Js)
    (h : parseAndValidate jp status text (some S) = .ok v) :
    S ((unwrap (parseBody jp text)).coalesce (parseBody jp text)) = true := by
  unfold parseAndValidate at h
  by_cases hs : status ≥ 400
  · simp [hs] at h
  · simp [hs] at h
    by_cases hc : S ((unwrap (parseBody jp text)).coalesce (parseBody jp text))
    · exact hc
    · simp [hc] at h

/-! ### Claims -/

/-- Claim C1 (code bug, failing input): the class documentation of `BaseApi`
promises "Throw ApiError for non-2xx responses", but `parseAndValidate` only
throws when `status >= 400`.  Evaluated at the non-2xx status 304 with an
empty body, every request method returns normally (with payload `undefined`)
instead of raising an `ApiError`, for every JSON parse oracle. -/
theorem parseAndValidate_304_no_throw :
    ∀ jp : String → Option Js, parseAndValidate jp 304 "" none = .ok .undefined :=
  fun _ => rfl

/-- Claim C2: for every 2xx response (any parse oracle, any response text),
the request methods return the unwrapped payload — `body.data` when the
parsed body is an object with a `"data"` key, the parsed body itself
otherwise. -/
theorem parseAndValidate_unwraps_envelope_2xx (jp : String → Option Js)
    (status : Nat) (text : String) (h1 : 200 ≤ status) (h2 : status ≤ 299) :
    parseAndValidate jp status text none =
      .ok (match parseBody jp text with
           | .obj fs =>
               if (fs.find? (fun p => p.1 == "data")).isSome then fieldVal fs "data"
               else .obj fs
           | b => b) := by
  have hs : ¬ status ≥ 400 := by omega
  unfold parseAndValidate
  simp only [hs, if_false]
  cases hb : parseBody jp text <;>
    simp only [unwrap, hb, Js.truthy, Js.isObjectType, Js.hasProp, Js.get,
      Bool.true_and, Bool.false_and, Bool.and_false, Bool.and_true] <;>
    simp

/-- Witness for C2 at a concrete 2xx envelope response. -/
theorem parseAndValidate_unwraps_envelope_2xx_witness :
    parseAndValidate (fun _ => some (.obj [("data", .str "p")])) 200 "x" none
      = .ok (.str "p") :=
  (parseAndValidate_unwraps_envelope_2xx (fun _ => some (.obj [("data", .str "p")]))
    200 "x" (by decide) (by decide)).trans (by rfl)

/-- Claim C3, counterexample: a schema-checked 2xx request can return a
value the schema rejects.  With response body `{"data":null}` and a schema
accepting exactly the objects, the schema check runs on `payload ?? body =
body` (an object, accepted), yet the method returns the payload `null`,
which the schema rejects. -/
theorem parseAndValidate_can_return_unvalidated_payload :
    parseAndValidate (fun _ => some (.obj [("data", .null)])) 200
        "\x7b\"data\":null\x7d"
        (some (fun v => match v with | .obj _ => true | _ => false))
      = .ok .null
    ∧ (fun (v : Js) => match v with | .obj _ => true | _ => false) .null = false :=
  ⟨rfl, rfl⟩

/-- Claim C3, amended: on a 2xx response the supplied schema is run on
`payload ?? body` — the unwrapped payload, falling back to the whole parsed
body when the payload is nullish — and the method throws exactly when that
value fails the schema; hence whenever the payload is non-nullish, the
value returned has been validated against the schema.  With no schema, no
validation happens and the unwrapped payload is returned as-is. -/
theorem parseAndValidate_validates_payload_or_body (jp : String → Option Js)
    (status : Nat) (text : String) (S : Js → Bool)
    (h1 : 200 ≤ status) (h2 : status ≤ 299) :
    (parseAndValidate jp status text (some S) =
      if S ((unwrap (parseBody jp text)).coalesce (parseBody jp text)) then
        .ok (unwrap (parseBody jp text))
      else .error .zodError)
    ∧ ((unwrap (parseBody jp text)).nullish = false →
        ∀ v, parseAndValidate jp status text (some S) = .ok v → S v = true)
    ∧ parseAndValidate jp status text none = .ok (unwrap (parseBody jp text)) := by
  have hs : ¬ status ≥ 400 := by omega
  refine ⟨?_, ?_, ?_⟩
  · unfold parseAndValidate
    simp only [hs, if_false]
  · intro hnn v hok
    have hv := parseAndValidate_ok_payload jp status text (some S) v hok
    have hsch := parseAndValidate_ok_schema jp status text S v hok
    rwa [coalesce_not_nullish _ _ hnn, ← hv] at hsch
  · unfold parseAndValidate
    simp only [hs, if_false]

/-- Witness for C3 (amended) at a concrete 2xx envelope response checked
with `z.string()`. -/
theorem parseAndValidate_validates_payload_or_body_witness :
    parseAndValidate (fun _ => some (.obj [("data", .str "p")])) 204 "x" (some isStr)
      = .ok (.str "p") :=
  ((parseAndValidate_validates_payload_or_body
      (fun _ => some (.obj [("data", .str "p")])) 204 "x" isStr
      (by decide) (by decide)).1).trans (by rfl)

/-- Claim C4, counterexample: a schema failure on a 2xx response escapes a
`BaseApi` request method as a Zod validation error, which carries no HTTP
status — so not every failure raised out of the client layer is an error
object carrying a status code. -/
theorem baseApi_schema_failure_is_zodError_without_status :
    parseAndValidate (fun _ => some (.obj [])) 200 "\x7b\x7d" (some (fun _ => false))
      = .error .zodError :=
  rfl

/-- Claim C4, amended: every status-based failure (response status >= 400)
raised out of `BaseApi`'s request methods — and, for a schema-valid request,
out of `UsersApi.register` and `UsersApi.login` — is an `ApiError` carrying
that HTTP status.  Schema-validation failures, by contrast, carry no status:
out of `BaseApi` they are Zod errors, and `UsersApi` rewraps them as
`new ApiError(String(err))`, whose `status` is `undefined`. -/
theorem apiClient_failure_taxonomy (jp : String → Option Js)
    (emailOk : String → Bool) (status : Nat) (text : String)
    (oschema : Option (Js → Bool)) (name email password : String) :
    (400 ≤ status → parseAndValidate jp status text oschema =
        .error (.apiError ("Request failed with status " ++ Nat.repr status)
          (some status) ((parseBody jp text).coalesce (.str text))))
    ∧ (∀ S : Js → Bool, status < 400 →
        S ((unwrap (parseBody jp text)).coalesce (parseBody jp text)) = false →
        parseAndValidate jp status text (some S) = .error .zodError)
    ∧ (400 ≤ status → RegisterUserRequestSchema emailOk name email password = true →
        (UsersApi.register jp emailOk name email password (status, text)).1 =
          .error (.apiError ("Request failed with status " ++ Nat.repr status)
            (some status) ((parseBody jp text).coalesce (.str text))))
    ∧ (400 ≤ status → LoginRequestSchema emailOk email password = true →
        (UsersApi.login jp emailOk email password (status, text)).1 =
          .error (.apiError ("Request failed with status " ++ Nat.repr status)
            (some status) ((parseBody jp text).coalesce (.str text))))
    ∧ (status < 400 → LoginRequestSchema emailOk email password = true →
        LoginResponseSchema ((unwrap (parseBody jp text)).coalesce (parseBody jp text))
          = false →
        (UsersApi.login jp emailOk email password (status, text)).1 =
          .error (.apiError (errToString .zodError) none .undefined)) := by
  refine ⟨?_, ?_, ?_, ?_, ?_⟩
  · intro h
    unfold parseAndValidate
    simp [h]
  · intro S hlt hS
    have hs : ¬ status ≥ 400 := by omega
    unfold parseAndValidate
    simp [hs, hS]
  · intro h hreq
    unfold UsersApi.register
    rw [if_pos hreq]
    unfold parseAndValidate
    simp [h, wrapErr]
  · intro h hreq
    unfold UsersApi.login
    rw [if_pos hreq]
    unfold parseAndValidate
    simp [h, wrapErr]
  · intro hlt hreq hS
    have hs : ¬ status ≥ 400 := by omega
    unfold UsersApi.login
    rw [if_pos hreq]
    unfold parseAndValidate
    simp [hs, hS, wrapErr]

/-- Witness for C4 (amended) at a concrete 500 response with no body. -/
theorem apiClient_failure_taxonomy_witness :
    parseAndValidate (fun _ => none) 500 "" none =
      .error (.apiError "Request failed with status 500" (some 500) (.str "")) :=
  ((apiClient_failure_taxonomy (fun _ => none) (fun _ => true) 500 "" none
    "" "" "").1 (by decide)).trans (by rfl)

/-- Claim C6, counterexample: a test carrying an `'xray'` annotation with a
non-empty description (`XSP-9`) whose classname is nevertheless the bare
relative path, because `annotations.find` returns the earlier `'xray'`
annotation whose description is empty. -/
theorem buildClassname_first_xray_masks_later_key :
    buildClassname [⟨"xray", some ""⟩, ⟨"xray", some "XSP-9"⟩] "a.spec.ts"
      = "a.spec.ts"
    ∧ ([(⟨"xray", some ""⟩ : TestAnn), ⟨"xray", some "XSP-9"⟩].any
        (fun a => a.atype == "xray" && !(a.description.getD "").isEmpty)) = true :=
  ⟨rfl, rfl⟩

/-- Claim C6, amended: the classname is the relative path prefixed with
`key ++ "::"` exactly when the FIRST annotation of type `'xray'` has a
truthy (present, non-empty) description, the key being that first
annotation's description; otherwise — no `'xray'` annotation at all, or a
first one with an absent or empty description — the classname is the bare
relative path.  Later `'xray'` annotations are ignored. -/
theorem buildClassname_uses_first_xray_entry (anns : List TestAnn) (p : String) :
    (anns.find? (fun a => a.atype == "xray") = none → buildClassname anns p = p)
    ∧ (∀ b, anns.find? (fun a => a.atype == "xray") = some b →
        (b.description.getD "").isEmpty = true → buildClassname anns p = p)
    ∧ (∀ b, anns.find? (fun a => a.atype == "xray") = some b →
        (b.description.getD "").isEmpty = false →
        buildClassname anns p = (b.description.getD "") ++ "::" ++ p) := by
  refine ⟨?_, ?_, ?_⟩
  · intro h
    unfold buildClassname
    rw [h]
    rfl
  · intro b hf hd
    unfold buildClassname
    rw [hf]
    simp [hd]
  · intro b hf hd
    unfold buildClassname
    rw [hf]
    simp [hd]

/-- Witness for C6 (amended): a single keyed `'xray'` annotation yields the
prefixed classname. -/
theorem buildClassname_uses_first_xray_entry_witness :
    buildClassname [⟨"xray", some "XSP-54"⟩] "tests/e2e/registration.spec.ts"
      = "XSP-54::tests/e2e/registration.spec.ts" :=
  (buildClassname_uses_first_xray_entry [⟨"xray", some "XSP-54"⟩]
    "tests/e2e/registration.spec.ts").2.2 ⟨"xray", some "XSP-54"⟩ rfl rfl

/-- Claim C8: both `UsersApi` methods validate their request payload before
any HTTP traffic: an input rejected by the request schema makes the method
throw the Zod validation error (not an `ApiError`) with no request issued
(the second component of the result records whether the HTTP request
happened). -/
theorem request_validated_before_http (jp : String → Option Js)
    (emailOk : String → Bool) (name email password : String)
    (resp : Nat × String) :
    (RegisterUserRequestSchema emailOk name email password = false →
      UsersApi.register jp emailOk name email password resp
        = (.error .zodError, false))
    ∧ (LoginRequestSchema emailOk email password = false →
      UsersApi.login jp emailOk email password resp
        = (.error .zodError, false)) := by
  constructor
  · intro h
    unfold UsersApi.register
    simp [h]
  · intro h
    unfold UsersApi.login
    simp [h]

/-- Witness for C8: a five-character password fails
`RegisterUserRequestSchema`, so `register` throws before any HTTP call. -/
theorem request_validated_before_http_witness :
    UsersApi.register (fun _ => none) (fun _ => true) "Ann B" "a@b.co" "12345"
      (200, "") = (.error .zodError, false) :=
  (request_validated_before_http (fun _ => none) (fun _ => true) "Ann B" "a@b.co"
    "12345" (200, "")).1 (by decide)

/-- Claim C9, counterexample: the claim says a non-2xx status gets the body
attached to a thrown `ApiError`, but at status 300 with a non-JSON body the
code throws nothing and returns the raw text as payload. -/
theorem parseAndValidate_status_300_returns_ok :
    parseAndValidate (fun _ => none) 300 "hi" none = .ok (.str "hi") :=
  rfl

/-- Claim C9, amended: response-body parsing is total in the response text —
an empty text yields an `undefined` body, a text the JSON parser rejects is
kept as the raw text, a parsed text yields the parsed value — and for a
status >= 400 (not: any non-2xx status) the thrown `ApiError` carries
`body ?? text`. -/
theorem parseBody_total_and_error_attachment (jp : String → Option Js)
    (text : String) (status : Nat) (oschema : Option (Js → Bool)) :
    (text = "" → parseBody jp text = .undefined)
    ∧ (text ≠ "" → jp text = none → parseBody jp text = .str text)
    ∧ (∀ j, text ≠ "" → jp text = some j → parseBody jp text = j)
    ∧ (400 ≤ status →
        parseAndValidate jp status text oschema =
          .error (.apiError ("Request failed with status " ++ Nat.repr status)
            (some status) ((parseBody jp text).coalesce (.str text)))) := by
  refine ⟨?_, ?_, ?_, ?_⟩
  · intro h
    unfold parseBody
    simp [h]
  · intro h hjp
    unfold parseBody
    simp [h, hjp]
  · intro j h hjp
    unfold parseBody
    simp [h, hjp]
  · intro h
    unfold parseAndValidate
    simp [h]

/-- Witness for C9 (amended) at a concrete 404 response with a non-JSON
body: no parse error escapes and the raw text is attached to the
`ApiError`. -/
theorem parseBody_total_and_error_attachment_witness :
    parseAndValidate (fun _ => none) 404 "oops" none =
      .error (.apiError "Request failed with status 404" (some 404) (.str "oops")) :=
  ((parseBody_total_and_error_attachment (fun _ => none) "oops" 404 none).2.2.2
    (by decide)).trans (by rfl)

/-- A nullish JSON-denotable value is `null`. -/
theorem nullish_jsonLike_eq_null (v : Js) (h1 : v.nullish = true)
    (h2 : v.jsonLike = true) : v = .null := by
  cases v with
  | undefined => simp [Js.jsonLike] at h2
  | null => rfl
  | bool b => simp [Js.nullish] at h1
  | num n => simp [Js.nullish] at h1
  | str s => simp [Js.nullish] at h1
  | arr l => simp [Js.nullish] at h1
  | obj fs => simp [Js.nullish] at h1

/-- With a JSON-producing parse oracle, the parsed body is `undefined`
(empty text) or a JSON-denotable value. -/
theorem parseBody_jsonLike (jp : String → Option Js) (text : String)
    (hjson : ∀ t j, jp t = some j → j.jsonLike = true) :
    parseBody jp text = .undefined ∨ (parseBody jp text).jsonLike = true := by
  unfold parseBody
  by_cases ht : text = ""
  · rw [if_pos ht]
    exact Or.inl rfl
  · rw [if_neg ht]
    cases hjp : jp text with
    | none => exact Or.inr (by simp [Js.jsonLike])
    | some j => exact Or.inr (hjson _ _ hjp)

/-- Every object accepted by `LoginResponseSchema` makes the token
expression of `UsersApi.login` produce a string, taken from the `token`
field or the `data.token` field of that object. -/
theorem loginSchema_token (fs : List (String × Js))
    (h : LoginResponseSchema (.obj fs) = true) :
    ∃ s, tokenExpr (.obj fs) = .str s
      ∧ ((Js.obj fs).optChain "token" = .str s
         ∨ ((Js.obj fs).optChain "data").optChain "token" = .str s) := by
  have hobj : (Js.obj fs).optChain "token" = fieldVal fs "token" := rfl
  have hdat : (Js.obj fs).optChain "data" = fieldVal fs "data" := rfl
  simp only [LoginResponseSchema, Bool.and_eq_true, Bool.or_eq_true] at h
  obtain ⟨⟨hd, ht⟩, hr⟩ := h
  rcases zodOpt_isStr _ ht with htu | ⟨s, hs⟩
  · -- the top-level `token` field is absent; the refine condition forces a
    -- truthy `data.token`
    rcases hr with hr1 | hr2
    · rw [hdat] at hr1
      rcases hfd : fieldVal fs "data" with _ | _ | b | n | s0 | l | dfs
      · rw [hfd] at hr1; simp [Js.optChain, Js.truthy] at hr1
      · rw [hfd] at hr1; simp [Js.optChain, Js.truthy] at hr1
      · rw [hfd] at hd; simp [zodOpt, loginDataOk] at hd
      · rw [hfd] at hd; simp [zodOpt, loginDataOk] at hd
      · rw [hfd] at hr1; simp [Js.optChain, Js.get, Js.truthy] at hr1
      · rw [hfd] at hd; simp [zodOpt, loginDataOk] at hd
      · rw [hfd] at hd
        have hds : isStr (fieldVal dfs "token") = true := by
          simpa [zodOpt, loginDataOk] using hd
        obtain ⟨s2, hs2⟩ := isStr_str _ hds
        refine ⟨s2, ?_, Or.inr ?_⟩
        · unfold tokenExpr
          rw [hobj, htu, hdat, hfd,
            show (Js.obj dfs).optChain "token" = fieldVal dfs "token" from rfl, hs2]
          rfl
        · rw [hdat, hfd,
            show (Js.obj dfs).optChain "token" = fieldVal dfs "token" from rfl, hs2]
    · rw [hobj, htu] at hr2
      simp [Js.truthy] at hr2
  · -- the top-level `token` field is a string
    refine ⟨s, ?_, Or.inl (hobj.trans hs)⟩
    unfold tokenExpr
    rw [hobj, hs]
    rfl

/-- If the schema check of `UsersApi.login` succeeded (on `payload ?? body`),
the token expression evaluated on the payload yields a string taken from the
payload's `token` or `data.token`. -/
theorem login_payload_token (jp : String → Option Js) (text : String)
    (hjson : ∀ t j, jp t = some j → j.jsonLike = true)
    (hsch : LoginResponseSchema
        ((unwrap (parseBody jp text)).coalesce (parseBody jp text)) = true) :
    ∃ s, tokenExpr (unwrap (parseBody jp text)) = .str s
      ∧ ((unwrap (parseBody jp text)).optChain "token" = .str s
         ∨ ((unwrap (parseBody jp text)).optChain "data").optChain "token"
             = .str s) := by
  by_cases hnull : (unwrap (parseBody jp text)).nullish = true
  · -- impossible: a nullish payload forces the whole body through the
    -- schema, and the schema rejects every body whose `data` is `null`
    exfalso
    rw [coalesce_nullish _ _ hnull] at hsch
    obtain ⟨bfs, hbfs⟩ := loginSchema_obj _ hsch
    have hjl : (parseBody jp text).jsonLike = true := by
      rcases parseBody_jsonLike jp text hjson with h | h
      · rw [h] at hbfs; cases hbfs
      · exact h
    rw [hbfs] at hnull hsch hjl
    simp only [Js.jsonLike] at hjl
    unfold unwrap at hnull
    simp only [Js.truthy, Js.isObjectType, Js.hasProp, Bool.true_and] at hnull
    cases hfind : bfs.find? (fun p => p.1 == "data") with
    | none => simp [hfind, Js.nullish] at hnull
    | some pr =>
        have hfv : fieldVal bfs "data" = pr.2 := by
          unfold fieldVal; rw [hfind]
        simp only [hfind, Option.isSome_some, if_true, Js.get, hfv] at hnull
        have hprj : pr.2.jsonLike = true := jsonLikeFields_find bfs _ pr hjl hfind
        have hnl : pr.2 = .null := nullish_jsonLike_eq_null _ hnull hprj
        simp only [LoginResponseSchema, Bool.and_eq_true] at hsch
        obtain ⟨⟨hd, _⟩, _⟩ := hsch
        rw [hfv, hnl] at hd
        simp [zodOpt, loginDataOk] at hd
  · have hnn : (unwrap (parseBody jp text)).nullish = false := by
      cases h : (unwrap (parseBody jp text)).nullish
      · rfl
      · exact absurd h hnull
    rw [coalesce_not_nullish _ _ hnn] at hsch
    obtain ⟨fs, hfs⟩ := loginSchema_obj _ hsch
    rw [hfs] at hsch
    rw [hfs]
    exact loginSchema_token fs hsch

/-- Claim C5: `UsersApi`'s two operations, embedded exactly as the source
defines them — `register` and `login` both posting through `BaseApi.post`
with their response schema (`RegisterResponseSchema`, `LoginResponseSchema`)
— satisfy: whenever `register` returns it returns the unwrapped response
payload, an empty object when that payload is nullish; and whenever `login`
returns without throwing it returns a string, the token taken from the
validated response payload (its `token` or `data.token` field).  The parse
oracle is assumed to produce only JSON-denotable values, as `JSON.parse`
does. -/
theorem usersApi_register_login_contract (jp : String → Option Js)
    (emailOk : String → Bool) (name email password : String)
    (status : Nat) (text : String)
    (hjson : ∀ t j, jp t = some j → j.jsonLike = true) :
    (∀ d, (UsersApi.register jp emailOk name email password (status, text)).1
        = .ok d →
        d = (unwrap (parseBody jp text)).coalesce (Js.obj []))
    ∧ (∀ v, (UsersApi.login jp emailOk email password (status, text)).1 = .ok v →
        ∃ s, v = .str s
          ∧ ((unwrap (parseBody jp text)).optChain "token" = .str s
             ∨ ((unwrap (parseBody jp text)).optChain "data").optChain "token"
                 = .str s)) := by
  constructor
  · intro d hd
    unfold UsersApi.register at hd
    by_cases hq : RegisterUserRequestSchema emailOk name email password = true
    · simp only [hq, if_true] at hd
      cases hpv : parseAndValidate jp status text
          (some (RegisterResponseSchema emailOk)) with
      | ok d0 =>
          rw [hpv] at hd
          simp at hd
          have h0 := parseAndValidate_ok_payload _ _ _ _ _ hpv
          rw [← hd, h0]
      | error e =>
          rw [hpv] at hd
          simp at hd
    · simp only [hq, if_false] at hd
      simp at hd
  · intro v hv
    unfold UsersApi.login at hv
    by_cases hq : LoginRequestSchema emailOk email password = true
    · simp only [hq, if_true] at hv
      cases hpv : parseAndValidate jp status text (some LoginResponseSchema) with
      | ok d0 =>
          rw [hpv] at hv
          simp at hv
          have h0 := parseAndValidate_ok_payload _ _ _ _ _ hpv
          have hsch := parseAndValidate_ok_schema _ _ _ _ _ hpv
          rw [h0] at hv
          obtain ⟨s, hts, hor⟩ := login_payload_token jp text hjson hsch
          exact ⟨s, by rw [← hv, hts], hor⟩
      | error e =>
          rw [hpv] at hv
          simp at hv
    · simp only [hq, if_false] at hv
      simp at hv

/-- Witness for C5: a concrete login against the envelope response
`(data (token tk))` returns the token string `tk`, drawn from
`data.token` of the payload. -/
theorem usersApi_register_login_contract_witness :
    ∃ s, Js.str "tk" = Js.str s
      ∧ ((unwrap (parseBody
            (fun _ => some (.obj [("data", .obj [("token", .str "tk")])]))
            "x")).optChain "token" = .str s
         ∨ ((unwrap (parseBody
              (fun _ => some (.obj [("data", .obj [("token", .str "tk")])]))
              "x")).optChain "data").optChain "token" = .str s) :=
  (usersApi_register_login_contract
    (fun _ => some (.obj [("data", .obj [("token", .str "tk")])]))
    (fun _ => true) "N" "a@b.co" "pw" 200 "x"
    (by
      intro t j h
      cases h
      simp [Js.jsonLike, jsonLikeFields, jsonLikeList])).2
    (.str "tk") (by rfl)

set_option maxRecDepth 10000 in
/-- Claim C7 (code bug, failing input): the reporter escapes the five XML
special characters in every attribute value and element text it
interpolates, but writes the error stack into `<![CDATA[...]]>` with no
sanitisation.  For a failed test whose stack contains the CDATA terminator
`]]>` (here the stack `]]>&`), the emitted document terminates the CDATA
section early and the remainder is parsed as markup, so the document is not
well-formed XML — while the same report with a benign stack is well-formed.
The claim (and the spec's sole stated invariant, "produce well-formed XML")
require well-formedness for arbitrary stack traces. -/
theorem junitXml_malformed_on_cdata_in_stack :
    wellFormedXml (generateJUnitXML [cdataBreakSuite]) = false
    ∧ wellFormedXml (generateJUnitXML [plainSuite]) = true := by
  constructor
  · decide
  · decide
